import Mathlib

/-!
Shallow embedding of the python_ai_agents repository.

Covered source files:
* ai_agent.py, first part: the ReAct-style agent loop (CalendarAPI,
  EmailAPI, FakeGPT, AIAgent.run) — namespace AgentLoop.
* ai_agent.py, second part (the appended gemini assistant section):
  check_calendar, send_email, handle_tools, load_history,
  append_history — namespace Assistant.
* gemini_chat.py: load_history, append_history and one iteration of the
  interactive chat turn with a streamed model reply — namespace
  GeminiChat.

Machine strings are modelled as Lean String values; the Python
operations used by the code (str.lower, the substring membership test
x in y, f-string interpolation of lists via repr) are given explicit
executable definitions below.
-/

/-- Lowercase conversion, modelling the Python str.lower method. All
strings appearing in this repository are ASCII apart from the U+2019
quotation mark, which both Python and Char.toLower leave unchanged, so
the ASCII mapping of Char.toLower coincides with str.lower here. -/
def pyLower (s : String) : String := String.mk (s.data.map Char.toLower)

/-- Boolean test that the first character list is a prefix of the
second. -/
def isPrefixChars : List Char → List Char → Bool
  | [], _ => true
  | _ :: _, [] => false
  | a :: as, b :: bs => a == b && isPrefixChars as bs

/-- Boolean substring occurrence test on character lists: the needle
occurs starting at some position of the haystack. -/
def containsSub (needle : List Char) : List Char → Bool
  | [] => isPrefixChars needle []
  | c :: rest => isPrefixChars needle (c :: rest) || containsSub needle rest

/-- The Python substring membership test needle in hay, on strings. -/
def pyIn (needle hay : String) : Bool := containsSub needle.data hay.data

/-- One ASCII single-quote character, written by code point so that the
Lean source stays free of quote literals. -/
def squo : String := String.singleton (Char.ofNat 39)

/-- Python repr of a string: the text wrapped in single quotes (the
strings of this repository need no escaping). -/
def pyReprStr (s : String) : String := squo ++ s ++ squo

/-- Python repr of a list of strings, as produced when an f-string
interpolates a list value. -/
def pyReprStrList (xs : List String) : String :=
  "[" ++ String.intercalate ", " (xs.map pyReprStr) ++ "]"

namespace AgentLoop

/-- One agent step record, the JSON object produced by FakeGPT.run and
consumed by AIAgent.run (ai_agent.py). -/
structure StepRecord where
  thought : String
  plan : String
  action : String
  observation : String
  final_answer : String
deriving DecidableEq

/-- CalendarAPI.check_availability (ai_agent.py lines 6-12): a fixed
slot table, with the empty list as the default for unknown persons. -/
def check_availability (person : String) : List String :=
  if person = "user" then ["Wed 10AM", "Thu 11AM"]
  else if person = "Priya" then ["Thu 11AM", "Fri 2PM"]
  else []

/-- EmailAPI.draft_email (ai_agent.py lines 14-16); the first parameter
is named to in Python, a reserved word in Lean. -/
def draft_email (toAddr subject body : String) : String :=
  "Drafted email to " ++ toAddr ++ " with subject " ++ pyReprStr subject ++ ": " ++ body

/-- FakeGPT.run (ai_agent.py lines 25-59), as a function of the
post-increment step counter; the task argument is ignored by the Python
code. Steps 1 to 3 are scripted; every later step returns the final
record whose final_answer contains the completion keyword. -/
def fakeGPT (step : Nat) : StepRecord :=
  if step = 1 then
    { thought := "I need to start by checking calendars."
      plan := "Step 1: Call CalendarAPI for user and Priya."
      action := "CalendarAPI.check_availability"
      observation := "None yet."
      final_answer := "Checking availability..." }
  else if step = 2 then
    { thought := "Now I have both calendars. I should find a common slot."
      plan := "Compare availability of user and Priya."
      action := "none"
      observation := "User: Wed 10AM, Thu 11AM | Priya: Thu 11AM, Fri 2PM"
      final_answer := "Both are free on Thu 11AM. Should I draft an email?" }
  else if step = 3 then
    { thought := "I should draft a confirmation email to Priya."
      plan := "Use EmailAPI to create a draft."
      action := "EmailAPI.draft_email"
      observation := "None yet."
      final_answer := "Drafting the email now." }
  else
    { thought := "The task is complete."
      plan := "No further action needed."
      action := "none"
      observation := "All done."
      final_answer := "Email drafted successfully and meeting scheduled." }

/-- The action dispatch of AIAgent.run (ai_agent.py lines 88-100): a
recognized action overwrites the observation field with the tool
result; any other action, the literal none included, leaves the record
unchanged — the if/elif chain has no else branch, so nothing is raised
or recorded for an unrecognized action. -/
def executeTool (r : StepRecord) : StepRecord :=
  if r.action = "CalendarAPI.check_availability" then
    let obs := "User: " ++ pyReprStrList (check_availability "user") ++
      " | Priya: " ++ pyReprStrList (check_availability "Priya")
    { r with observation := obs }
  else if r.action = "EmailAPI.draft_email" then
    let email := draft_email "Priya" "Meeting Confirmation"
      "Hi Priya, confirming our meeting on Thu 11AM."
    { r with observation := email }
  else r

/-- The completion test of AIAgent.run (ai_agent.py line 107): the
lowercased final_answer contains the substring successfully. -/
def isDone (r : StepRecord) : Bool := pyIn "successfully" (pyLower r.final_answer)

/-- The while loop of AIAgent.run (ai_agent.py lines 73-108), with the
backend given as the sequence of records FakeGPT would return at each
step counter value. The loop guard is not done and step < 5; since step
starts at 0 and increases by one per iteration, 5 units of fuel cover
every iteration the guard can admit. Returns the final (step, done)
pair of the loop state. -/
def agentLoop (backend : Nat → StepRecord) : Nat → Nat → Bool → Nat × Bool
  | 0, step, done => (step, done)
  | fuel + 1, step, done =>
    if done = false ∧ step < 5 then
      agentLoop backend fuel (step + 1) (isDone (executeTool (backend (step + 1))))
    else (step, done)

/-- AIAgent.run: the loop starts at step 0 with done false. -/
def agentRun (backend : Nat → StepRecord) : Nat × Bool :=
  agentLoop backend 5 0 false

/-- The value AIAgent.run returns to its caller: the Python method body
has no return statement, so every run returns None, here Unit. -/
def agentRunResult (_backend : Nat → StepRecord) : Unit := ()

/-- A scripted backend that never signals completion: every step
returns the same record whose final_answer lacks the keyword. -/
def stubbornGPT (_step : Nat) : StepRecord :=
  { thought := "Still thinking."
    plan := "Keep working."
    action := "none"
    observation := "Nothing new."
    final_answer := "Still working on the task." }

end AgentLoop

/-- One persisted transcript record, the JSON object written per line
by append_history: a timestamp, a role and a content string. -/
structure TranscriptRec where
  ts : String
  role : String
  content : String
deriving DecidableEq

/-- One in-memory history entry in the format the Gemini backend
expects, as built by load_history: a role and a parts list holding the
content. -/
structure HistEntry where
  role : String
  parts : List String
deriving DecidableEq

namespace Assistant

/-- check_calendar (ai_agent.py lines 147-152): fake calendar lookup
keyed on the lowercased user name; unknown persons get a one-element
default list rather than the empty list. -/
def check_calendar (user : String) : List String :=
  if pyLower user = "shivam" then ["Wed 10AM", "Thu 11AM"]
  else if pyLower user = "priya" then ["Thu 11AM", "Fri 2PM"]
  else ["No availability found."]

/-- send_email (ai_agent.py lines 154-156); the first parameter is
named to in Python, a reserved word in Lean. -/
def send_email (toAddr subject body : String) : String :=
  "Email sent to " ++ toAddr ++ " with subject " ++ pyReprStr subject ++
    " and body " ++ pyReprStr body

/-- The calendar branch of handle_tools (ai_agent.py lines 163-169):
answer for priya, else for shivam, else ask whose calendar to check. -/
def calendar_reply (user_input : String) : Option String :=
  let text := pyLower user_input
  if pyIn "priya" text then
    some ("Priya’s availability: " ++ pyReprStrList (check_calendar "priya"))
  else if pyIn "shivam" text then
    some ("Shivam’s availability: " ++ pyReprStrList (check_calendar "shivam"))
  else
    some "Whose calendar do you want to check?"

/-- The email branch of handle_tools (ai_agent.py lines 172-183): the
recipient falls back to someone at example.com when neither known name
occurs, and send_email is called unconditionally. -/
def email_reply (user_input : String) : Option String :=
  let text := pyLower user_input
  let recipient :=
    if pyIn "priya" text then "priya@example.com"
    else if pyIn "shivam" text then "raishivam313@gmail.com"
    else "someone@example.com"
  some (send_email recipient "Meeting" "Let’s connect at Thu 11AM.")

/-- handle_tools (ai_agent.py lines 158-185): the calendar predicate is
evaluated before the email predicate on the lowercased input; no match
returns None. -/
def handle_tools (user_input : String) : Option String :=
  let text := pyLower user_input
  if pyIn "calendar" text then calendar_reply user_input
  else if pyIn "email" text then email_reply user_input
  else none

/-- append_history (ai_agent.py lines 198-204): appends one record to
the transcript; the timestamp the Python code takes from the clock is a
parameter here. -/
def append_history (file : List TranscriptRec) (ts role content : String) :
    List TranscriptRec :=
  file ++ [{ ts := ts, role := role, content := content }]

/-- load_history (ai_agent.py lines 188-196): every record becomes a
history entry with the content wrapped in a parts list; no role
filtering. -/
def load_history : List TranscriptRec → List HistEntry
  | [] => []
  | r :: rest => { role := r.role, parts := [r.content] } :: load_history rest

/-- Appending a whole sequence of turns, one append_history call per
record. -/
def appendAll (file : List TranscriptRec) (recs : List TranscriptRec) :
    List TranscriptRec :=
  recs.foldl (fun f r => append_history f r.ts r.role r.content) file

end Assistant

namespace GeminiChat

/-- append_history (gemini_chat.py lines 43-50): identical to the
assistant version, writing one record per call. -/
def append_history (file : List TranscriptRec) (ts role content : String) :
    List TranscriptRec :=
  file ++ [{ ts := ts, role := role, content := content }]

/-- load_history (gemini_chat.py lines 28-41): a record becomes a
history entry only when its role is the string user or the string
model; every other record is skipped without any signal. -/
def load_history : List TranscriptRec → List HistEntry
  | [] => []
  | r :: rest =>
    if r.role == "user" || r.role == "model" then
      { role := r.role, parts := [r.content] } :: load_history rest
    else load_history rest

/-- Appending a whole sequence of turns, one append_history call per
record. -/
def appendAll (file : List TranscriptRec) (recs : List TranscriptRec) :
    List TranscriptRec :=
  recs.foldl (fun f r => append_history f r.ts r.role r.content) file

/-- One event of the streamed model reply in interactive_chat: either a
text piece extracted from a chunk, or an exception raised by the model
call or by the stream. -/
inductive StreamEvent where
  | chunk (piece : String)
  | failure
deriving DecidableEq

/-- The streaming loop of interactive_chat (gemini_chat.py lines
104-112): pieces are concatenated into full_text in order; an
exception anywhere aborts the whole try block. -/
def consumeStream (acc : String) : List StreamEvent → Except Unit String
  | [] => Except.ok acc
  | StreamEvent.chunk p :: rest => consumeStream (acc ++ p) rest
  | StreamEvent.failure :: _ => Except.error ()

/-- One model-backed turn of interactive_chat (gemini_chat.py lines
99-118): the user turn is appended before the model call; the model
turn is appended only after the reply is fully concatenated; on an
exception the except branch prints and continues, appending nothing. -/
def process_turn (file : List TranscriptRec) (ts user : String)
    (events : List StreamEvent) : List TranscriptRec :=
  let file1 := append_history file ts "user" user
  match consumeStream "" events with
  | Except.ok full_text => append_history file1 ts "model" full_text
  | Except.error _ => file1

end GeminiChat

/-!
Theorems. Each claim of the specification gets one theorem below,
preceded by helper lemmas shared between claims.
-/

namespace AgentLoop

/-- The tool dispatch never touches the final_answer field, so the
completion test commutes with it. -/
theorem isDone_executeTool (r : StepRecord) : isDone (executeTool r) = isDone r := by
  unfold executeTool
  split
  · rfl
  · split <;> rfl

/-- One continuing iteration of the loop: below the ceiling, with the
next record not signalling completion, the loop advances one step. -/
theorem agentLoop_cont (backend : Nat → StepRecord) (fuel step : Nat)
    (h : step < 5) (hstep : isDone (backend (step + 1)) = false) :
    agentLoop backend (fuel + 1) step false = agentLoop backend fuel (step + 1) false := by
  rw [agentLoop, if_pos ⟨rfl, h⟩, isDone_executeTool, hstep]

/-- One completing iteration: below the ceiling, with the next record
signalling completion, the loop advances one step and sets done. -/
theorem agentLoop_hit (backend : Nat → StepRecord) (fuel step : Nat)
    (h : step < 5) (hstep : isDone (backend (step + 1)) = true) :
    agentLoop backend (fuel + 1) step false = agentLoop backend fuel (step + 1) true := by
  rw [agentLoop, if_pos ⟨rfl, h⟩, isDone_executeTool, hstep]

/-- Once done is set the loop exits with the current step count. -/
theorem agentLoop_finish (backend : Nat → StepRecord) (fuel step : Nat) :
    agentLoop backend fuel step true = (step, true) := by
  cases fuel with
  | zero => rfl
  | succ fuel =>
    rw [agentLoop, if_neg]
    intro hcontra
    exact absurd hcontra.1 (by decide)

end AgentLoop

namespace AgentLoop

/-- Claim C1: the agent loop halts at the first step whose record has a
final_answer containing the completion keyword (the substring
successfully, checked on the lowercased text): if the records of steps
1 to k-1 lack the keyword and the record of step k has it, for k within
the ceiling, the loop executes exactly k steps and terminates with the
done flag set. The witness instantiates the reference scripted backend
FakeGPT, whose fourth record carries the keyword, giving exactly 4
steps. -/
theorem agent_halts_on_first_completion (backend : Nat → StepRecord) (k : Nat)
    (hk1 : 1 ≤ k) (hk5 : k ≤ 5)
    (hbefore : ∀ i, 1 ≤ i → i < k → isDone (backend i) = false)
    (hat : isDone (backend k) = true) :
    agentRun backend = (k, true) := by
  unfold agentRun
  interval_cases k
  · rw [agentLoop_hit backend 4 0 (by norm_num) hat, agentLoop_finish]
  · rw [agentLoop_cont backend 4 0 (by norm_num) (hbefore 1 le_rfl (by norm_num)),
      agentLoop_hit backend 3 1 (by norm_num) hat, agentLoop_finish]
  · rw [agentLoop_cont backend 4 0 (by norm_num) (hbefore 1 le_rfl (by norm_num)),
      agentLoop_cont backend 3 1 (by norm_num) (hbefore 2 (by norm_num) (by norm_num)),
      agentLoop_hit backend 2 2 (by norm_num) hat, agentLoop_finish]
  · rw [agentLoop_cont backend 4 0 (by norm_num) (hbefore 1 le_rfl (by norm_num)),
      agentLoop_cont backend 3 1 (by norm_num) (hbefore 2 (by norm_num) (by norm_num)),
      agentLoop_cont backend 2 2 (by norm_num) (hbefore 3 (by norm_num) (by norm_num)),
      agentLoop_hit backend 1 3 (by norm_num) hat, agentLoop_finish]
  · rw [agentLoop_cont backend 4 0 (by norm_num) (hbefore 1 le_rfl (by norm_num)),
      agentLoop_cont backend 3 1 (by norm_num) (hbefore 2 (by norm_num) (by norm_num)),
      agentLoop_cont backend 2 2 (by norm_num) (hbefore 3 (by norm_num) (by norm_num)),
      agentLoop_cont backend 1 3 (by norm_num) (hbefore 4 (by norm_num) (by norm_num)),
      agentLoop_hit backend 0 4 (by norm_num) hat]
    rfl

/-- Witness for C1 at the reference scripted backend: FakeGPT completes
at step 4, so the loop runs exactly 4 steps. -/
theorem agent_halts_on_first_completion_witness :
    agentRun fakeGPT = (4, true) :=
  agent_halts_on_first_completion fakeGPT 4 (by norm_num) (by norm_num)
    (by intro i h1 h2; interval_cases i <;> decide) (by decide)

/-- Claim C2: a backend none of whose records signals completion drives
the loop to exactly 5 steps, the fixed ceiling, after which it
terminates normally with the done flag still clear; the model is a
total function, so reaching the ceiling produces the ordinary result
(5, false) and no error. -/
theorem agent_reaches_ceiling (backend : Nat → StepRecord)
    (h : ∀ i, isDone (backend i) = false) :
    agentRun backend = (5, false) := by
  unfold agentRun
  rw [agentLoop_cont backend 4 0 (by norm_num) (h 1),
    agentLoop_cont backend 3 1 (by norm_num) (h 2),
    agentLoop_cont backend 2 2 (by norm_num) (h 3),
    agentLoop_cont backend 1 3 (by norm_num) (h 4),
    agentLoop_cont backend 0 4 (by norm_num) (h 5)]
  rfl

/-- Witness for C2 at a scripted backend that never completes. -/
theorem agent_reaches_ceiling_witness :
    agentRun stubbornGPT = (5, false) :=
  agent_reaches_ceiling stubbornGPT (fun _ => rfl)

/-- Claim C3, counterexample: AIAgent.run returns None to its caller in
every case, so the values returned by a completing run (FakeGPT, done
after 4 steps) and by a ceiling run (the stubborn backend, stopped at 5
steps with done still clear) are identical, and the caller cannot tell
the two outcomes apart from them. -/
theorem run_return_value_counterexample :
    (agentRun fakeGPT).2 = true ∧ agentRun stubbornGPT = (5, false) ∧
      agentRunResult fakeGPT = agentRunResult stubbornGPT :=
  ⟨by decide, by decide, rfl⟩

/-- Claim C3 as amended: the distinction between a completed run and a
ceiling run exists only in the internal loop state — the final (step,
done) pairs differ whenever one run completes and the other hits the
ceiling — while the value returned to the caller is None for both. -/
theorem done_flag_distinguishes_outcomes (b1 b2 : Nat → StepRecord)
    (h1 : (agentRun b1).2 = true) (h2 : (agentRun b2).2 = false) :
    agentRun b1 ≠ agentRun b2 ∧ agentRunResult b1 = agentRunResult b2 := by
  refine ⟨fun h => ?_, rfl⟩
  rw [h, h2] at h1
  exact absurd h1 (by decide)

/-- Witness for the amended C3: FakeGPT completes, the stubborn backend
hits the ceiling, their internal final states differ while the returned
values coincide. -/
theorem done_flag_distinguishes_outcomes_witness :
    agentRun fakeGPT ≠ agentRun stubbornGPT ∧
      agentRunResult fakeGPT = agentRunResult stubbornGPT :=
  done_flag_distinguishes_outcomes fakeGPT stubbornGPT (by decide) (by decide)

/-- Claim C4, counterexample: an action string that is neither a
registered tool identifier nor the literal none takes the same path as
none through the dispatch of AIAgent.run — the record comes back fully
unchanged, and since the dispatch is an if/elif chain with no else
branch, nothing is raised, printed or recorded about the unknown
action: it is silently ignored, with no explicit error path. -/
theorem unknown_action_counterexample :
    executeTool ⟨"t", "p", "Database.lookup", "None yet.", "working"⟩ =
      (⟨"t", "p", "Database.lookup", "None yet.", "working"⟩ : StepRecord) ∧
    executeTool ⟨"t", "p", "none", "None yet.", "working"⟩ =
      (⟨"t", "p", "none", "None yet.", "working"⟩ : StepRecord) :=
  ⟨by decide, by decide⟩

/-- Claim C4 as amended: an unrecognized action is treated exactly like
the literal none — no tool executes and the step record is returned
unchanged — but silently: the dispatch has no else branch, so no error
is signalled or recorded. -/
theorem unknown_action_is_silent (r : StepRecord)
    (h1 : r.action ≠ "CalendarAPI.check_availability")
    (h2 : r.action ≠ "EmailAPI.draft_email") :
    executeTool r = r := by
  unfold executeTool
  rw [if_neg h1, if_neg h2]

/-- Witness for the amended C4 at a concrete unknown action. -/
theorem unknown_action_is_silent_witness :
    executeTool ⟨"t", "p", "WebSearch.query", "None yet.", "working"⟩ =
      (⟨"t", "p", "WebSearch.query", "None yet.", "working"⟩ : StepRecord) :=
  unknown_action_is_silent _ (by decide) (by decide)

end AgentLoop

namespace Assistant

/-- Claim C5: on an input whose lowercased text contains both the
calendar keyword and the email keyword, handle_tools takes the calendar
branch, because the calendar predicate is evaluated first; the email
branch is never the result. -/
theorem calendar_beats_email (s : String)
    (hc : pyIn "calendar" (pyLower s) = true)
    (he : pyIn "email" (pyLower s) = true) :
    handle_tools s = calendar_reply s ∧ handle_tools s ≠ email_reply s := by
  have hroute : handle_tools s = calendar_reply s := by
    unfold handle_tools
    simp only [hc, if_true]
  refine ⟨hroute, ?_⟩
  rw [hroute]
  unfold calendar_reply email_reply
  cases hp : pyIn "priya" (pyLower s) <;> cases hs : pyIn "shivam" (pyLower s) <;>
    simp only [hp, hs, if_true, if_false, Bool.false_eq_true, Bool.true_eq_false] <;>
    decide

/-- Witness for C5 at a literal input holding both keywords: the result
is the calendar clarification question, not the email confirmation. -/
theorem calendar_beats_email_witness :
    handle_tools "Check the calendar and send an email" =
        calendar_reply "Check the calendar and send an email" ∧
      handle_tools "Check the calendar and send an email" ≠
        email_reply "Check the calendar and send an email" :=
  calendar_beats_email "Check the calendar and send an email" (by decide) (by decide)

/-- Claim C6, counterexample: an input that matches the email category
but names no recognized recipient does not get a clarification request;
handle_tools falls back to the default recipient someone at example.com
and invokes the send capability, returning its confirmation string. -/
theorem email_fallback_counterexample :
    pyIn "email" (pyLower "Send an email to Bob") = true ∧
    pyIn "priya" (pyLower "Send an email to Bob") = false ∧
    pyIn "shivam" (pyLower "Send an email to Bob") = false ∧
    handle_tools "Send an email to Bob" =
      some (send_email "someone@example.com" "Meeting" "Let’s connect at Thu 11AM.") :=
  ⟨by decide, by decide, by decide, by decide⟩

/-- Claim C6 as amended: only the calendar category requests
clarification when the person cannot be extracted — an input with the
calendar keyword and no recognized name yields the question whose
calendar to check, without invoking the lookup — while the email
category instead falls back to the default recipient and invokes
send_email. -/
theorem clarification_and_fallback (s t : String)
    (hsc : pyIn "calendar" (pyLower s) = true)
    (hsp : pyIn "priya" (pyLower s) = false)
    (hss : pyIn "shivam" (pyLower s) = false)
    (htc : pyIn "calendar" (pyLower t) = false)
    (hte : pyIn "email" (pyLower t) = true)
    (htp : pyIn "priya" (pyLower t) = false)
    (hts : pyIn "shivam" (pyLower t) = false) :
    handle_tools s = some "Whose calendar do you want to check?" ∧
    handle_tools t =
      some (send_email "someone@example.com" "Meeting" "Let’s connect at Thu 11AM.") := by
  constructor
  · unfold handle_tools calendar_reply
    simp only [hsc, hsp, hss, if_true, if_false, Bool.false_eq_true]
  · unfold handle_tools email_reply
    simp only [htc, hte, htp, hts, if_true, if_false, Bool.false_eq_true]

/-- Witness for the amended C6 at concrete inputs for both branches. -/
theorem clarification_and_fallback_witness :
    handle_tools "check the calendar" = some "Whose calendar do you want to check?" ∧
    handle_tools "send an email to bob" =
      some (send_email "someone@example.com" "Meeting" "Let’s connect at Thu 11AM.") :=
  clarification_and_fallback "check the calendar" "send an email to bob"
    (by decide) (by decide) (by decide) (by decide) (by decide) (by decide) (by decide)

end Assistant

namespace AgentLoop

/-- Claim C9: CalendarAPI.check_availability answers every person
identifier outside its slot table with the empty list — the dictionary
lookup uses the empty list as its default, so an unknown person yields
no failure and no sentinel slot. -/
theorem unknown_person_empty (person : String)
    (h1 : person ≠ "user") (h2 : person ≠ "Priya") :
    check_availability person = [] := by
  unfold check_availability
  rw [if_neg h1, if_neg h2]

/-- Witness for C9 at a concrete unknown person. -/
theorem unknown_person_empty_witness : check_availability "Bob" = [] :=
  unknown_person_empty "Bob" (by decide) (by decide)

end AgentLoop

namespace GeminiChat

/-- Folding append_history over a record sequence appends exactly that
sequence to the file. -/
theorem chat_appendAll_eq (recs : List TranscriptRec) :
    ∀ file, appendAll file recs = file ++ recs := by
  induction recs with
  | nil => intro file; simp [appendAll]
  | cons r rest ih =>
    intro file
    have hstep : appendAll file (r :: rest) = appendAll (file ++ [r]) rest := rfl
    rw [hstep, ih]
    simp

/-- Claim C10: load_history of gemini_chat keeps exactly the records
whose role is the string user or the string model, in original order,
each mapped to a role plus singleton parts entry; every other record is
dropped, and the function is total, so nothing is signalled for the
dropped records. -/
theorem load_history_filters_roles (file : List TranscriptRec) :
    load_history file =
      (file.filter fun r => r.role == "user" || r.role == "model").map
        fun r => { role := r.role, parts := [r.content] } := by
  induction file with
  | nil => rfl
  | cons r rest ih =>
    cases hrole : (r.role == "user" || r.role == "model") with
    | true =>
      rw [load_history, if_pos hrole, List.filter_cons, if_pos hrole, List.map_cons, ih]
    | false =>
      have hneg : ¬((r.role == "user" || r.role == "model") = true) := by
        rw [hrole]; exact Bool.false_ne_true
      rw [load_history, if_neg hneg, List.filter_cons, if_neg hneg, ih]

/-- A mid-stream failure makes the whole stream consumption fail,
whatever was accumulated before the failing chunk. -/
theorem consumeStream_fails (events : List StreamEvent)
    (hmem : StreamEvent.failure ∈ events) :
    ∀ acc, consumeStream acc events = Except.error () := by
  induction events with
  | nil => cases hmem
  | cons e rest ih =>
    intro acc
    cases e with
    | failure => rfl
    | chunk p =>
      have hrest : StreamEvent.failure ∈ rest := by
        cases hmem with
        | tail _ h => exact h
      exact ih hrest (acc ++ p)

/-- Claim C8: when the model call or its token stream fails partway
through a turn of interactive_chat, the persisted transcript afterwards
is the old file plus exactly one record, the user turn; no model turn,
empty or partial, is appended for that exchange. -/
theorem user_turn_survives_failure (file : List TranscriptRec)
    (ts user : String) (events : List StreamEvent)
    (hfail : StreamEvent.failure ∈ events) :
    process_turn file ts user events =
      file ++ [{ ts := ts, role := "user", content := user }] := by
  unfold process_turn
  rw [consumeStream_fails events hfail ""]
  rfl

/-- Witness for C8: a stream that yields one piece and then fails
leaves only the user turn persisted. -/
theorem user_turn_survives_failure_witness :
    process_turn [] "t0" "hello model"
        [StreamEvent.chunk "Hel", StreamEvent.failure] =
      [{ ts := "t0", role := "user", content := "hello model" }] :=
  user_turn_survives_failure [] "t0" "hello model"
    [StreamEvent.chunk "Hel", StreamEvent.failure]
    (List.mem_cons_of_mem _ (List.mem_cons_self _ _))

/-- Claim C7, counterexample: a single turn appended with the role
assistant is not returned by a subsequent load in gemini_chat — the
loader returns the empty history instead of that turn, so the round
trip fails for sequences holding a role outside user and model. -/
theorem assistant_role_breaks_round_trip :
    load_history (append_history [] "2024-01-01" "assistant" "hello") ≠
      [{ role := "assistant", parts := ["hello"] }] := by
  decide

end GeminiChat

namespace Assistant

/-- Folding append_history over a record sequence appends exactly that
sequence to the file. -/
theorem assistant_appendAll_eq (recs : List TranscriptRec) :
    ∀ file, appendAll file recs = file ++ recs := by
  induction recs with
  | nil => intro file; simp [appendAll]
  | cons r rest ih =>
    intro file
    have hstep : appendAll file (r :: rest) = appendAll (file ++ [r]) rest := rfl
    rw [hstep, ih]
    simp

/-- The assistant loader maps every record, with no filtering. -/
theorem load_history_maps (file : List TranscriptRec) :
    load_history file = file.map fun r => { role := r.role, parts := [r.content] } := by
  induction file with
  | nil => rfl
  | cons r rest ih => rw [load_history, List.map_cons, ih]

end Assistant

/-- Claim C7 as amended: the append-then-load round trip holds for
every sequence of turns whose roles are all the string user or the
string model — the only roles the programs ever append — under the
gemini_chat store; the assistant store of ai_agent.py round-trips every
sequence with no role restriction. In both cases the load returns one
entry per appended turn, in append order, with the same role and with
the content as the single parts element. -/
theorem append_then_load_round_trip (recs : List TranscriptRec)
    (h : ∀ r ∈ recs, r.role = "user" ∨ r.role = "model") :
    GeminiChat.load_history (GeminiChat.appendAll [] recs) =
        recs.map (fun r => { role := r.role, parts := [r.content] }) ∧
      Assistant.load_history (Assistant.appendAll [] recs) =
        recs.map fun r => { role := r.role, parts := [r.content] } := by
  constructor
  · rw [GeminiChat.chat_appendAll_eq, List.nil_append,
      GeminiChat.load_history_filters_roles, List.filter_eq_self.mpr]
    intro r hr
    rcases h r hr with hu | hm
    · rw [hu]; decide
    · rw [hm]; decide
  · rw [Assistant.assistant_appendAll_eq, List.nil_append, Assistant.load_history_maps]

/-- Witness for the amended C7 at a concrete two-turn conversation. -/
theorem append_then_load_round_trip_witness :
    GeminiChat.load_history (GeminiChat.appendAll []
        [{ ts := "t1", role := "user", content := "hi" },
         { ts := "t2", role := "model", content := "hello" }]) =
      [{ role := "user", parts := ["hi"] },
       { role := "model", parts := ["hello"] }] :=
  (append_then_load_round_trip
    [{ ts := "t1", role := "user", content := "hi" },
     { ts := "t2", role := "model", content := "hello" }]
    (by intro r hr; fin_cases hr <;> simp)).1
